import Mathlib

/-!
Verification development for the librealsense negotiation/decoding core.
The pose algebra, enum helpers and mode-selection data model of
`src/types.h` and the field-of-view helper of `examples/cpp-capture.cpp`
are embedded shallowly.  Machine `float` arithmetic is idealised as exact
rational (or real, for the transcendental helper) arithmetic; all the
properties below are algebraic identities or disidentities that hold
exactly at the chosen inputs, so the idealisation is faithful.
-/

namespace rsimpl

/-! World's tiniest linear algebra library (types.h lines 30-40).
`float3` holds x, y, z components; `float3x3` is stored column-major:
its fields x, y, z are the three stored column vectors. -/

structure float3 where
  x : ℚ
  y : ℚ
  z : ℚ
deriving DecidableEq

structure float3x3 where
  x : float3
  y : float3
  z : float3
deriving DecidableEq

structure pose where
  orientation : float3x3
  position : float3
deriving DecidableEq

/-- Component accessor, C++ `float3::operator[](int i)`: `(&x)[i]`. -/
def float3.get (v : float3) : Fin 3 → ℚ
  | ⟨0, _⟩ => v.x
  | ⟨1, _⟩ => v.y
  | ⟨2, _⟩ => v.z

/-- Stored column j of the matrix: `(&x)[j]` in the C++ layout. -/
def float3x3.col (m : float3x3) : Fin 3 → float3
  | ⟨0, _⟩ => m.x
  | ⟨1, _⟩ => m.y
  | ⟨2, _⟩ => m.z

/-- Element accessor, C++ `float3x3::operator()(int i, int j)`: `(&x)[j][i]`,
component i of stored column j. -/
def float3x3.el (m : float3x3) (i j : Fin 3) : ℚ :=
  (m.col j).get i

/-- C++ `operator+(const float3 &, const float3 &)` (types.h line 33). -/
def f3add (a b : float3) : float3 :=
  ⟨a.x + b.x, a.y + b.y, a.z + b.z⟩

/-- C++ `operator*(const float3 &, float)` (types.h line 34). -/
def f3smul (a : float3) (b : ℚ) : float3 :=
  ⟨a.x * b, a.y * b, a.z * b⟩

/-- C++ `operator*(const float3x3 &, const float3 &)` (types.h line 35):
`a.x*b.x + a.y*b.y + a.z*b.z`, the combination of stored columns. -/
def m3vmul (a : float3x3) (b : float3) : float3 :=
  f3add (f3add (f3smul a.x b.x) (f3smul a.y b.y)) (f3smul a.z b.z)

/-- C++ `operator*(const float3x3 &, const float3x3 &)` (types.h line 36). -/
def m3mul (a b : float3x3) : float3x3 :=
  ⟨m3vmul a b.x, m3vmul a b.y, m3vmul a b.z⟩

/-- C++ `transpose(const float3x3 &)` (types.h line 37). -/
def transpose (a : float3x3) : float3x3 :=
  ⟨⟨a.x.x, a.y.x, a.z.x⟩, ⟨a.x.y, a.y.y, a.z.y⟩, ⟨a.x.z, a.y.z, a.z.z⟩⟩

/-- C++ `operator*(const pose &, const float3 &)` (types.h line 38):
`a.orientation * b + a.position`. -/
def poseTransform (a : pose) (b : float3) : float3 :=
  f3add (m3vmul a.orientation b) a.position

/-- C++ `operator*(const pose &, const pose &)` (types.h line 39), embedded
exactly as written: `{a.orientation * b.orientation, a.position + a * b.position}`
where `a * b.position` is `poseTransform a b.position`. -/
def poseMul (a b : pose) : pose :=
  ⟨m3mul a.orientation b.orientation, f3add a.position (poseTransform a b.position)⟩

/-- C++ `inverse(const pose &)` (types.h line 40):
`inv = transpose(a.orientation); {inv, inv * a.position * -1}`. -/
def inverse (a : pose) : pose :=
  ⟨transpose a.orientation, m3vmul (transpose a.orientation) (f3smul a.position (-1))⟩

/-- Identity 3x3 matrix, for stating algebraic properties. -/
def idMat : float3x3 :=
  ⟨⟨1, 0, 0⟩, ⟨0, 1, 0⟩, ⟨0, 0, 1⟩⟩

/-- Identity pose: identity orientation, zero position. -/
def identityPose : pose :=
  ⟨idMat, ⟨0, 0, 0⟩⟩

/-- Orthonormality of a 3x3 matrix: its transpose is a left inverse. -/
def orthonormal (m : float3x3) : Prop :=
  m3mul (transpose m) m = idMat

instance (m : float3x3) : Decidable (orthonormal m) := by
  unfold orthonormal; infer_instance

/-- Concrete pose with identity (hence orthonormal) orientation and
position (1, 0, 0), used to evaluate the pose algebra. -/
def exA : pose :=
  ⟨idMat, ⟨1, 0, 0⟩⟩

/-! Enumerated type support (types.h lines 17-25).  The RS_ENUM_HELPERS
preprocessor block instantiates, for each of the five enumerated domain
types (rs_stream, rs_format, rs_preset, rs_distortion, rs_option), the
same validity predicate and stream-insertion operator over the C enum's
underlying int, with that type's RS_*_COUNT sentinel.  The sentinel values
live in the missing header rs.h, so the count is a parameter here; the
bodies below are the ones in types.h. -/

/-- C++ `is_valid(TYPE value)` from RS_ENUM_HELPERS (types.h line 18):
`value >= 0 && value < RS_##PREFIX##_COUNT`. -/
def is_valid (count value : Int) : Bool :=
  decide (value ≥ 0) && decide (value < count)

/-- C++ `operator<<(std::ostream &, TYPE value)` from RS_ENUM_HELPERS
(types.h line 19), with the emitted text made explicit: if `is_valid` the
name table `get_string` is consulted, else the decimal value is printed. -/
def enum_show (get_string : Int → String) (count value : Int) : String :=
  if is_valid count value then get_string value else toString value

/-! Static camera info (types.h lines 59-113).  The stream and format
enumerations live in the missing header rs.h; streams are modelled as the
four identifiers the example application uses, formats as their underlying
int codes with the "any" wildcard. -/

/-- Modelled from the spec: the closed set of stream identifiers is declared
in the missing header rs.h; the example application and the spec name the
four streams DEPTH, COLOR, INFRARED, INFRARED_2. -/
inductive rs_stream where
  | DEPTH
  | COLOR
  | INFRARED
  | INFRARED_2
deriving DecidableEq

/-- Every stream identifier, in declaration order (the request table is
indexed by stream, with RS_STREAM_COUNT entries). -/
def allStreams : List rs_stream :=
  [rs_stream.DEPTH, rs_stream.COLOR, rs_stream.INFRARED, rs_stream.INFRARED_2]

/-- Modelled from the spec: the pixel-format wildcard constant of the missing
header rs.h; a request format "may be any" and the wildcard is the zero code. -/
def RS_FORMAT_ANY : Int := 0

/-- C++ `stream_request` (types.h lines 59-65); `format` is the rs_format
code. -/
structure stream_request where
  enabled : Bool
  width : Int
  height : Int
  format : Int
  fps : Int
deriving DecidableEq

/-- C++ `stream_mode` (types.h lines 67-74). -/
structure stream_mode where
  stream : rs_stream
  width : Int
  height : Int
  format : Int
  fps : Int
  intrinsics_index : Int
deriving DecidableEq

/-- C++ `subdevice_mode` (types.h lines 76-85); `format` is the uvc wire
format code; the unpacker and frame-number-decoder code pointers are not
part of the selection logic and are omitted. -/
structure subdevice_mode where
  subdevice : Int
  width : Int
  height : Int
  format : Int
  fps : Int
  streams : List stream_mode
deriving DecidableEq

/-- The int fields of stream_request an interstream rule may constrain,
modelling the member pointer `int stream_request::* field`. -/
inductive req_field where
  | width
  | height
  | fps
deriving DecidableEq

/-- Dereference the member pointer on a request. -/
def reqField : req_field → stream_request → Int
  | req_field.width, r => r.width
  | req_field.height, r => r.height
  | req_field.fps, r => r.fps

/-- Dereference the corresponding field on an advertised stream mode. -/
def smField : req_field → stream_mode → Int
  | req_field.width, s => s.width
  | req_field.height, s => s.height
  | req_field.fps, s => s.fps

/-- C++ `interstream_rule` (types.h lines 94-99): requires
`a.*field + delta == b.*field`. -/
structure interstream_rule where
  a : rs_stream
  b : rs_stream
  field : req_field
  delta : Int
deriving DecidableEq

/-- C++ `static_camera_info` (types.h lines 101-113), restricted to the
fields the mode-selection engine consults; the model name, preset table and
option-support table do not enter `select_mode`. -/
structure static_camera_info where
  stream_subdevices : rs_stream → Int
  subdevice_modes : List subdevice_mode
  interstream_rules : List interstream_rule

/-- Per-stream request compatibility: an embedded stream mode matches unless
its stream is enabled in the requests and an explicit request field (nonzero
width/height/fps, non-wildcard format) differs from the advertised field. -/
def stream_match (req : stream_request) (s : stream_mode) : Bool :=
  !req.enabled ||
    ((decide (req.width = 0) || decide (req.width = s.width)) &&
     (decide (req.height = 0) || decide (req.height = s.height)) &&
     (decide (req.format = RS_FORMAT_ANY) || decide (req.format = s.format)) &&
     (decide (req.fps = 0) || decide (req.fps = s.fps)))

/-- All embedded stream modes of a candidate pass `stream_match`. -/
def mode_streams_ok (requests : rs_stream → stream_request) (m : subdevice_mode) : Bool :=
  m.streams.all fun s => stream_match (requests s.stream) s

/-- The candidate covers every enabled request mapped onto this sub-device. -/
def mode_covers (info : static_camera_info) (requests : rs_stream → stream_request)
    (sub : Int) (m : subdevice_mode) : Bool :=
  allStreams.all fun st =>
    if (requests st).enabled = true ∧ info.stream_subdevices st = sub then
      m.streams.any fun s => decide (s.stream = st)
    else true

/-- Pre-filter on requests alone: a rule whose two streams are both enabled
with both field values explicit (nonzero) must satisfy
`value(a) + delta = value(b)`; a "do not care" zero on either side passes. -/
def rule_explicit_ok (requests : rs_stream → stream_request) (r : interstream_rule) : Bool :=
  if (requests r.a).enabled = true ∧ (requests r.b).enabled = true then
    if reqField r.field (requests r.a) = 0 ∨ reqField r.field (requests r.b) = 0 then true
    else decide (reqField r.field (requests r.a) + r.delta = reqField r.field (requests r.b))
  else true

/-- Effective value of a rule field for a stream under a candidate mode: the
explicit requested value when nonzero, otherwise the candidate's advertised
value when the candidate carries that stream, otherwise unconstrained. -/
def effField (requests : rs_stream → stream_request) (m : subdevice_mode)
    (st : rs_stream) (f : req_field) : Option Int :=
  if reqField f (requests st) = 0 then
    match m.streams.find? (fun s => decide (s.stream = st)) with
    | some s => some (smField f s)
    | none => none
  else some (reqField f (requests st))

/-- Per-candidate rule check: with the candidate's advertised values
substituted for "do not care" sides, the rule equation must hold whenever
both sides are determined. -/
def rule_mode_ok (requests : rs_stream → stream_request) (m : subdevice_mode)
    (r : interstream_rule) : Bool :=
  if (requests r.a).enabled = true ∧ (requests r.b).enabled = true then
    match effField requests m r.a r.field, effField requests m r.b r.field with
    | some va, some vb => decide (va + r.delta = vb)
    | _, _ => true
  else true

/-- A sub-device mode is eligible for the given sub-device index. -/
def candidate (info : static_camera_info) (requests : rs_stream → stream_request)
    (sub : Int) (m : subdevice_mode) : Bool :=
  decide (m.subdevice = sub) && mode_streams_ok requests m &&
    mode_covers info requests sub m &&
    info.interstream_rules.all (rule_mode_ok requests m)

/-- Modelled from the spec: the body of
`static_camera_info::select_mode(const stream_request (&)[RS_STREAM_COUNT], int)`
is not among the given sources (types.h line 112 only declares it).  Per the
spec, the search is constrained to modes of the given sub-device whose
embedded stream modes are compatible with every enabled request, which cover
every enabled request mapped onto the sub-device, and which survive the
interstream rules; a request pair violating a rule with both sides explicit
yields no compatible mode at all; among the surviving candidates the
first-declared catalog entry is returned. -/
def select_mode (info : static_camera_info) (requests : rs_stream → stream_request)
    (sub : Int) : Option subdevice_mode :=
  if info.interstream_rules.all (rule_explicit_ok requests) = true then
    info.subdevice_modes.find? (candidate info requests sub)
  else none

/-! Concrete catalogs used to evaluate the selection engine. -/

/-- A depth stream mode advertised at 640x480, format code 1, 30 fps. -/
def exStream : stream_mode :=
  ⟨rs_stream.DEPTH, 640, 480, 1, 30, 0⟩

/-- A sub-device mode on sub-device 0 carrying only `exStream`. -/
def exMode : subdevice_mode :=
  ⟨0, 628, 469, 0, 30, [exStream]⟩

/-- Camera info mapping DEPTH to sub-device 0 and offering `exMode`. -/
def exInfo : static_camera_info :=
  ⟨fun st => if st = rs_stream.DEPTH then 0 else -1, [exMode], []⟩

/-- Requests enabling DEPTH at 640x480, wildcard format, 30 fps. -/
def exRequests : rs_stream → stream_request := fun st =>
  match st with
  | rs_stream.DEPTH => ⟨true, 640, 480, 0, 30⟩
  | _ => ⟨false, 0, 0, 0, 0⟩

/-- A rule requiring the two infrared request widths to be equal. -/
def exRule : interstream_rule :=
  ⟨rs_stream.INFRARED, rs_stream.INFRARED_2, req_field.width, 0⟩

/-- Camera info carrying `exRule`. -/
def exInfo2 : static_camera_info :=
  ⟨fun _ => 0, [exMode], [exRule]⟩

/-- Requests that enable both infrared streams with explicit, unequal widths. -/
def exRequests2 : rs_stream → stream_request := fun st =>
  match st with
  | rs_stream.INFRARED => ⟨true, 640, 0, 0, 0⟩
  | rs_stream.INFRARED_2 => ⟨true, 320, 0, 0, 0⟩
  | _ => ⟨false, 0, 0, 0, 0⟩

/-! Field-of-view helper (examples/cpp-capture.cpp lines 23-26). -/

/-- Mathematical two-argument arctangent on the reals, the idealisation of
`atan2f(y, x)`. -/
noncomputable def atan2 (y x : ℝ) : ℝ :=
  if 0 < x then Real.arctan (y / x)
  else if 0 < y then Real.pi / 2 - Real.arctan (x / y)
  else if y < 0 then -(Real.pi / 2) - Real.arctan (x / y)
  else if x < 0 then Real.pi
  else 0

/-- C++ `compute_fov(int image_size, float focal_length, float principal_point)`
(cpp-capture.cpp lines 23-26):
`(atan2f(pp + 0.5f, f) + atan2f(size - pp - 0.5f, f)) * 180.0f / M_PI`. -/
noncomputable def compute_fov (image_size focal_length principal_point : ℝ) : ℝ :=
  (atan2 (principal_point + 0.5) focal_length +
    atan2 (image_size - principal_point - 0.5) focal_length) * 180 / Real.pi

/-! Theorems. -/

/-- Claim C1: pose composition is stated to return position
`A.position + A.orientation * B.position`, but the code at types.h line 39
computes `a.position + a * b.position`, and the pose-times-vector operator of
line 38 already adds `a.position`, so the position is double-counted.  At
A = (identity, (1,0,0)), B = the identity pose, the code yields (2,0,0)
while the stated formula yields (1,0,0). -/
theorem poseMul_position_diverges :
    (poseMul exA identityPose).position = (⟨2, 0, 0⟩ : float3) ∧
    f3add exA.position (m3vmul exA.orientation identityPose.position) = (⟨1, 0, 0⟩ : float3) ∧
    (poseMul exA identityPose).position ≠
      f3add exA.position (m3vmul exA.orientation identityPose.position) := by
  refine ⟨?_, ?_, ?_⟩ <;>
    norm_num [poseMul, poseTransform, f3add, m3vmul, f3smul, m3mul, exA,
      identityPose, idMat, float3.mk.injEq]

/-- Claim C2: for the orthonormal pose exA = (identity, (1,0,0)), the code's
composition of `inverse exA` with exA is not the identity pose: its
orientation is the identity matrix but its position evaluates to (-1,0,0),
a consequence of the double-counted position in `poseMul`. -/
theorem inverse_compose_diverges :
    orthonormal exA.orientation ∧
    (poseMul (inverse exA) exA).orientation = idMat ∧
    (poseMul (inverse exA) exA).position = (⟨-1, 0, 0⟩ : float3) ∧
    poseMul (inverse exA) exA ≠ identityPose := by
  refine ⟨?_, ?_, ?_, ?_⟩ <;>
    norm_num [orthonormal, poseMul, poseTransform, inverse, transpose, f3add,
      m3vmul, f3smul, m3mul, exA, identityPose, idMat, float3.mk.injEq,
      float3x3.mk.injEq, pose.mk.injEq]

/-- Claim C3: pose composition as coded is not associative (composing
exA = (identity, (1,0,0)) with the identity pose twice gives position
(4,0,0) one way and (2,0,0) the other), though it is indeed not
commutative at the same inputs. -/
theorem poseMul_not_associative :
    poseMul (poseMul exA identityPose) identityPose ≠
      poseMul exA (poseMul identityPose identityPose) ∧
    poseMul exA identityPose ≠ poseMul identityPose exA := by
  refine ⟨?_, ?_⟩ <;>
    norm_num [poseMul, poseTransform, f3add, m3vmul, f3smul, m3mul, exA,
      identityPose, idMat, float3.mk.injEq, float3x3.mk.injEq, pose.mk.injEq]

/-- Claim C7: the 3x3 matrix type is column-major: the element accessor
`M(i,j)` returns component i of the j-th stored column, and the
matrix-vector product is the linear combination of the stored columns, so
`(M*v)[i] = sum over j of M(i,j) * v[j]`. -/
theorem float3x3_col_major (m : float3x3) (v : float3) (i : Fin 3) :
    (∀ j : Fin 3, m.el i j = (m.col j).get i) ∧
    (m3vmul m v).get i = ∑ j : Fin 3, m.el i j * v.get j := by
  refine ⟨fun j => rfl, ?_⟩
  fin_cases i <;>
    simp [m3vmul, f3add, f3smul, float3x3.el, float3x3.col, float3.get,
      Fin.sum_univ_three]

/-- Claim C9: transpose swaps indices, `transpose(M)(i,j) = M(j,i)`, and is
an involution. -/
theorem transpose_swap_involutive (m : float3x3) (i j : Fin 3) :
    (transpose m).el i j = m.el j i ∧ transpose (transpose m) = m := by
  refine ⟨?_, ?_⟩
  · fin_cases i <;> fin_cases j <;> rfl
  · obtain ⟨⟨_, _, _⟩, ⟨_, _, _⟩, ⟨_, _, _⟩⟩ := m; rfl

/-- Claim C8: the validity predicate instantiated by RS_ENUM_HELPERS for
each enumerated domain type returns true exactly when the value is at least
zero and strictly below the type's COUNT sentinel. -/
theorem is_valid_iff (count value : Int) :
    is_valid count value = true ↔ 0 ≤ value ∧ value < count := by
  simp [is_valid]

/-- Claim C10: the stream-insertion operator instantiated by RS_ENUM_HELPERS
is total: on a valid value it emits the looked-up name, on any other value
it emits the decimal integer and never consults the name table, so its
output there is independent of the name table. -/
theorem enum_show_total (g g' : Int → String) (count value : Int) :
    (is_valid count value = true → enum_show g count value = g value) ∧
    (is_valid count value = false →
      enum_show g count value = toString value ∧
      enum_show g count value = enum_show g' count value) := by
  constructor
  · intro h; simp [enum_show, h]
  · intro h; simp [enum_show, h]

/-- Witness for C10: with COUNT = 2, the out-of-range value 5 prints as its
decimal text for any name table, and the in-range value 1 prints its name. -/
theorem enum_show_total_witness :
    enum_show (fun _ => "COLOR") 2 5 = toString (5 : Int) ∧
    enum_show (fun _ => "COLOR") 2 1 = "COLOR" :=
  ⟨((enum_show_total (fun _ => "COLOR") (fun _ => "DEPTH") 2 5).2 (by decide)).1,
   (enum_show_total (fun _ => "COLOR") (fun _ => "DEPTH") 2 1).1 (by decide)⟩

/-- Claim C6: the field-of-view helper returns
`atan2(pp + 0.5, f) + atan2(size - pp - 0.5, f)` converted from radians to
degrees (multiplied by 180 / pi). -/
theorem compute_fov_formula (image_size focal_length principal_point : ℝ) :
    compute_fov image_size focal_length principal_point =
      (atan2 (principal_point + 0.5) focal_length +
        atan2 (image_size - principal_point - 0.5) focal_length) * (180 / Real.pi) := by
  unfold compute_fov; ring

/-- Claim C4: `select_mode` returns a sub-device mode only if its sub-device
field equals the given index and every embedded stream mode whose stream is
enabled in the requests agrees with the request on each explicit field:
nonzero width/height/fps and non-wildcard format must match exactly, while a
zero or wildcard request field constrains nothing. -/
theorem select_mode_only_matching (info : static_camera_info)
    (requests : rs_stream → stream_request) (sub : Int) (m : subdevice_mode)
    (h : select_mode info requests sub = some m) :
    m.subdevice = sub ∧
      ∀ s ∈ m.streams, (requests s.stream).enabled = true →
        ((requests s.stream).width ≠ 0 → (requests s.stream).width = s.width) ∧
        ((requests s.stream).height ≠ 0 → (requests s.stream).height = s.height) ∧
        ((requests s.stream).format ≠ RS_FORMAT_ANY → (requests s.stream).format = s.format) ∧
        ((requests s.stream).fps ≠ 0 → (requests s.stream).fps = s.fps) := by
  unfold select_mode at h
  by_cases hall : info.interstream_rules.all (rule_explicit_ok requests) = true
  · rw [if_pos hall] at h
    have hp : candidate info requests sub m = true := List.find?_some h
    unfold candidate at hp
    simp only [Bool.and_eq_true, decide_eq_true_eq] at hp
    have hsub : m.subdevice = sub := by tauto
    have hstr : mode_streams_ok requests m = true := by tauto
    refine ⟨hsub, ?_⟩
    intro s hs hen
    have hm := List.all_eq_true.mp hstr s hs
    unfold stream_match at hm
    rw [hen] at hm
    simp only [Bool.not_true, Bool.false_or, Bool.and_eq_true, Bool.or_eq_true,
      decide_eq_true_eq] at hm
    refine ⟨fun hne => ?_, fun hne => ?_, fun hne => ?_, fun hne => ?_⟩ <;> tauto
  · rw [if_neg hall] at h
    exact Option.noConfusion h

/-- Witness for C4: on the concrete catalog `exInfo` with requests
`exRequests`, `select_mode` returns `exMode`, whose sub-device index is 0 and
whose depth stream mode carries the explicitly requested width. -/
theorem select_mode_only_matching_witness :
    exMode.subdevice = (0 : Int) ∧ (exRequests exStream.stream).width = exStream.width :=
  ⟨(select_mode_only_matching exInfo exRequests 0 exMode (by decide)).1,
   ((select_mode_only_matching exInfo exRequests 0 exMode (by decide)).2 exStream
      (by decide) (by decide)).1 (by decide)⟩

/-- Claim C5: whenever an interstream rule's two streams are both enabled in
the requests with explicit (nonzero) values of the rule's field and
`value(a) + delta` differs from `value(b)`, `select_mode` returns the
"no compatible mode" outcome `none`, for every sub-device index and
independently of all other field compatibility. -/
theorem select_mode_rule_reject (info : static_camera_info)
    (requests : rs_stream → stream_request) (r : interstream_rule) (sub : Int)
    (hr : r ∈ info.interstream_rules)
    (ha : (requests r.a).enabled = true) (hb : (requests r.b).enabled = true)
    (hva : reqField r.field (requests r.a) ≠ 0)
    (hvb : reqField r.field (requests r.b) ≠ 0)
    (hne : reqField r.field (requests r.a) + r.delta ≠ reqField r.field (requests r.b)) :
    select_mode info requests sub = none := by
  have hfail : rule_explicit_ok requests r = false := by
    unfold rule_explicit_ok
    rw [if_pos ⟨ha, hb⟩, if_neg (by push_neg; exact ⟨hva, hvb⟩)]
    exact decide_eq_false hne
  have hallf : info.interstream_rules.all (rule_explicit_ok requests) = false := by
    cases hcase : info.interstream_rules.all (rule_explicit_ok requests) with
    | false => rfl
    | true =>
        have hc := List.all_eq_true.mp hcase r hr
        rw [hfail] at hc
        exact absurd hc (by simp)
  unfold select_mode
  rw [hallf]
  simp

/-- Witness for C5: with the infrared pairing rule `exRule` and requests
asking for widths 640 and 320, `select_mode` on `exInfo2` returns `none`. -/
theorem select_mode_rule_reject_witness :
    select_mode exInfo2 exRequests2 0 = none :=
  select_mode_rule_reject exInfo2 exRequests2 exRule 0 (by decide) (by decide)
    (by decide) (by decide) (by decide) (by decide)

end rsimpl
